import Mathlib

/-!
Shallow embedding of the process-lifecycle and environment-resolution core of
the WebStack manager (source: src/cp.py, class WebStackManager).

Modelling conventions:

* The observable side effects of a call are recorded as a list of `Effect`
  values, in the order the source performs them.  A `.log` effect is one call
  to `log_message`, i.e. one line appended to `<stackDir>/webstack_manager.log`.
* The filesystem and OS facts a call reads are collected in a `World` record:
  `pathExists p` models `os.path.exists(p)` / `Path(p).exists()` (follows
  symlinks, so a dangling symlink yields `false`), `lexists p` models the path
  being occupied without following the link (`Path.is_symlink` on a dangling
  link), `pidOf p` the integer contents of a PID file, `sourceEnvLines` the
  stdout lines of `bash -c "source env.sh && env"` when that command exits 0
  (`none` models a `subprocess.CalledProcessError`), `mysqlShutdownOk` /
  `mysqlPingOk` the exit status of `mariadb-admin shutdown` / `ping`, and
  `killOk pid` whether `os.kill(pid, SIGTERM)` succeeds (a stale PID raises
  `ProcessLookupError`, modelled as `false`).
* Process environments are association lists `List (String × String)`;
  `setVar` mirrors Python dict assignment on `os.environ.copy()` (update in
  place when the key is present, append otherwise).
* Exceptions caught by the try/except blocks of the source are modelled as the
  explicit error branches of the corresponding total function.
-/

namespace WebStack

/-- One observable side effect of a manager operation, in source order.
`log` is one line appended to the operational audit log; `runSource` is the
subshell spawned to source `env.sh`; `adminCmd` is an invocation of
`mariadb-admin` with the given subcommand; `startSvc d s` records that the
start of service `s` was issued with delay `d` milliseconds
(`QTimer.singleShot(d, ...)`; `d = 0` is the immediate synchronous call);
`msgBox` is a GUI message box. -/
inductive Effect where
  | log (msg : String)
  | runSource
  | adminCmd (cmd : String)
  | kill (pid : Nat)
  | unlink (path : String)
  | rmtree (path : String)
  | symlink (link : String) (target : String)
  | startSvc (delayMs : Nat) (svc : String)
  | msgBox (title : String)
  deriving DecidableEq

/-- The facts about the filesystem, OS and configuration that the modelled
operations read.  See the module comment for the meaning of each field. -/
structure World where
  stackDir : String
  pathExists : String → Bool
  lexists : String → Bool
  currentResolvedName : Option String
  pidOf : String → Nat
  sourceEnvLines : Option (List String)
  baseEnv : List (String × String)
  mysqlPingOk : Bool
  mysqlShutdownOk : Bool
  killOk : Nat → Bool
  autoLoadEnv : Bool

/-- `os.path.join` / `Path` division for a relative component. -/
def pjoin (a b : String) : String := a ++ "/" ++ b

/-- `self.deps_dir = os.path.join(self.stack_dir, "deps")`. -/
def depsDir (w : World) : String := pjoin w.stackDir "deps"

def envShPath (w : World) : String := pjoin w.stackDir "env.sh"

def nginxPidFile (w : World) : String := pjoin (pjoin w.stackDir "nginx") "nginx.pid"

def phpDirPath (w : World) : String := pjoin w.stackDir "php"

def phpCurrentLink (w : World) : String := pjoin (phpDirPath w) "current"

def phpPidFile (w : World) : String := pjoin (phpCurrentLink w) "php-fpm.pid"

def phpVersionDir (w : World) (v : String) : String := pjoin (phpDirPath w) v

def mysqlDirPath (w : World) : String := pjoin w.stackDir "mariadb"

def mysqlSockPath (w : World) : String := pjoin (mysqlDirPath w) "mariadb.sock"

def mysqlAdminPath (w : World) : String := pjoin (pjoin (mysqlDirPath w) "bin") "mariadb-admin"

def mysqlPidFile (w : World) : String := pjoin (mysqlDirPath w) "mariadb.pid"

/-- `key in env` on the association-list model of a Python dict. -/
def hasVar (e : List (String × String)) (k : String) : Bool :=
  e.any (fun p => p.1 == k)

/-- `env[key] = value` on the association-list model of a Python dict:
the key keeps its position when it already exists, otherwise the pair is
appended. -/
def setVar (e : List (String × String)) (k v : String) : List (String × String) :=
  if hasVar e k then e.map (fun p => if p.1 == k then (k, v) else p)
  else e ++ [(k, v)]

/-- `env.get(key)` on the association-list model of a Python dict. -/
def lookupVar (e : List (String × String)) (k : String) : Option String :=
  (e.find? (fun p => p.1 == k)).map (fun p => p.2)

/-- Split a character list at the first `=`, if any. -/
def splitFirstEq : List Char → Option (List Char × List Char)
  | [] => none
  | c :: rest =>
    if c = '=' then some ([], rest)
    else
      match splitFirstEq rest with
      | some kv => some (c :: kv.1, kv.2)
      | none => none

/-- One line of `env` output: `key, value = line.split('=', 1)` guarded by
`if '=' in line`.  Returns `none` when the line has no `=`. -/
def splitKV (line : String) : Option (String × String) :=
  match splitFirstEq line.toList with
  | some kv => some (String.mk kv.1, String.mk kv.2)
  | none => none

/-- The parsing loop of `get_environment`: overlay each `KEY=VALUE` line of the
subshell output onto the inherited environment. -/
def applyEnvLines (base : List (String × String)) (lines : List String) :
    List (String × String) :=
  lines.foldl
    (fun e l => match splitKV l with
      | some kv => setVar e kv.1 kv.2
      | none => e)
    base

/-- The `lib_paths` candidate list of `get_fallback_environment`, in source
order: private deps tree first, then system directories. -/
def libCandidates (w : World) : List String :=
  [pjoin (depsDir w) "lib", pjoin (depsDir w) "lib64",
   "/usr/lib", "/usr/lib64", "/lib", "/lib64"]

/-- The `bin_paths` candidate list of `get_fallback_environment`, in source
order: private deps tree and stack root first, then system directories. -/
def binCandidates (w : World) : List String :=
  [pjoin (depsDir w) "bin", pjoin w.stackDir "bin", "/usr/bin", "/bin"]

/-- The pattern `env[K] = joined + ":" + env[K] if K in env else joined`
used for both `LD_LIBRARY_PATH` and `PATH` in `get_fallback_environment`. -/
def prependPathVar (e : List (String × String)) (k joined : String) :
    List (String × String) :=
  match lookupVar e k with
  | some old => setVar e k (joined ++ ":" ++ old)
  | none => setVar e k joined

/-- `get_fallback_environment` (src/cp.py lines 110-154): start from
`os.environ.copy()`, prepend the existing library candidates to
`LD_LIBRARY_PATH`, prepend the existing binary candidates to `PATH`, then set
`WEBSTACK_HOME` and `PKG_CONFIG_PATH`.  It performs no side effects. -/
def get_fallback_environment (w : World) : List (String × String) :=
  let env := w.baseEnv
  let env := prependPathVar env "LD_LIBRARY_PATH"
    (String.intercalate ":" ((libCandidates w).filter w.pathExists))
  let env := prependPathVar env "PATH"
    (String.intercalate ":" ((binCandidates w).filter w.pathExists))
  let env := setVar env "WEBSTACK_HOME" w.stackDir
  setVar env "PKG_CONFIG_PATH" (pjoin (pjoin (depsDir w) "lib") "pkgconfig")

/-- `get_environment` (src/cp.py lines 78-108): when `env.sh` exists, source it
in a subshell; on success overlay the printed environment over
`os.environ.copy()`, on `CalledProcessError` fall back; when `env.sh` is
absent, fall back.  Every branch performs exactly one `log_message` call (the
error branch logs the exception text, modelled here by a fixed line). -/
def get_environment (w : World) : (List (String × String)) × List Effect :=
  if w.pathExists (envShPath w) then
    match w.sourceEnvLines with
    | some lines =>
        (applyEnvLines w.baseEnv lines,
         [Effect.runSource, Effect.log "Environment loaded from env.sh"])
    | none =>
        (get_fallback_environment w,
         [Effect.runSource, Effect.log "Error sourcing env.sh"])
  else
    (get_fallback_environment w,
     [Effect.log "env.sh not found, using fallback environment"])

/-- `stop_service` (src/cp.py lines 1527-1572).  The body first resolves the
environment (logging as it goes), then branches on the service, and finally
logs `Stopped <service> service`; any exception is caught by the enclosing
try/except, which logs an error line and shows a message box instead. -/
def stop_service (w : World) (svc : String) : List Effect :=
  let envE := (get_environment w).2
  if svc == "nginx" then
    if w.pathExists (nginxPidFile w) then
      let pid := w.pidOf (nginxPidFile w)
      if w.killOk pid then
        envE ++ [Effect.kill pid, Effect.log "Stopped nginx service"]
      else
        envE ++ [Effect.log "Error stopping nginx", Effect.msgBox "Stop nginx"]
    else
      envE ++ [Effect.log "Stopped nginx service"]
  else if svc == "php" then
    if w.pathExists (phpPidFile w) then
      let pid := w.pidOf (phpPidFile w)
      if w.killOk pid then
        envE ++ [Effect.kill pid, Effect.log "Stopped php service"]
      else
        envE ++ [Effect.log "Error stopping php", Effect.msgBox "Stop php"]
    else
      envE ++ [Effect.log "Stopped php service"]
  else if svc == "mysql" then
    if w.pathExists (mysqlAdminPath w) then
      if w.mysqlShutdownOk then
        envE ++ [Effect.adminCmd "shutdown", Effect.log "Stopped mysql service"]
      else
        envE ++ [Effect.adminCmd "shutdown",
                 Effect.log "Graceful shutdown failed, trying force kill"] ++
        (if w.pathExists (mysqlPidFile w) then
           let pid := w.pidOf (mysqlPidFile w)
           if w.killOk pid then
             [Effect.kill pid, Effect.log "Stopped mysql service"]
           else
             [Effect.log "Error stopping mysql", Effect.msgBox "Stop mysql"]
         else
           [Effect.log "Stopped mysql service"])
    else
      envE ++ [Effect.log "MySQL admin not found, cannot stop gracefully",
               Effect.log "Stopped mysql service"]
  else
    envE ++ [Effect.log ("Stopped " ++ svc ++ " service")]

/-- `check_mysql_status` (src/cp.py lines 1361-1383): `False` at once when the
socket file is absent; otherwise resolve the environment (which logs), check
for `mariadb-admin`, and report the exit status of `mariadb-admin ping`. -/
def check_mysql_status (w : World) : Bool × List Effect :=
  if w.pathExists (mysqlSockPath w) then
    let envE := (get_environment w).2
    if w.pathExists (mysqlAdminPath w) then
      (w.mysqlPingOk, envE ++ [Effect.adminCmd "ping"])
    else
      (false, envE)
  else
    (false, [])

inductive SvcStatus where
  | running
  | stopped
  | notInstalled
  deriving DecidableEq

/-- The status labels `update_status` writes to the three service indicators,
plus the PHP version label. -/
structure StatusView where
  nginx : SvcStatus
  php : SvcStatus
  phpVersionText : String
  mysql : SvcStatus
  deriving DecidableEq

/-- `update_status` (src/cp.py lines 1385-1427): nginx and PHP-FPM are probed
by PID-file existence, MariaDB via `check_mysql_status`.  The
`check_stack_health` call it begins with only reads the filesystem and writes
a GUI label, so it contributes no effects and is omitted from the output. -/
def update_status (w : World) : StatusView × List Effect :=
  let nginxSt := if w.pathExists (nginxPidFile w) then SvcStatus.running
                 else SvcStatus.stopped
  let phpSt := if w.pathExists (phpCurrentLink w) then
                 (if w.pathExists (phpPidFile w) then SvcStatus.running
                  else SvcStatus.stopped)
               else SvcStatus.notInstalled
  let phpVer := if w.pathExists (phpCurrentLink w) then
                  (match w.currentResolvedName with
                   | some n => n
                   | none => "Broken symlink")
                else "Unknown"
  let m := check_mysql_status w
  (⟨nginxSt, phpSt, phpVer, if m.1 then SvcStatus.running else SvcStatus.stopped⟩,
   m.2)

/-- `load_environment` (src/cp.py lines 727-739): resolve the environment,
display it, and log one more line. -/
def load_environment (w : World) : (List (String × String)) × List Effect :=
  ((get_environment w).1,
   (get_environment w).2 ++ [Effect.log "WebStack environment loaded"])

/-- `start_all_services` (src/cp.py lines 1580-1589): log, optionally load the
environment, start mysql immediately, schedule the php start 2000 ms out and
the nginx start 4000 ms out. -/
def start_all_services (w : World) : List Effect :=
  [Effect.log "Starting all services..."] ++
  (if w.autoLoadEnv then (load_environment w).2 else []) ++
  [Effect.startSvc 0 "mysql", Effect.startSvc 2000 "php",
   Effect.startSvc 4000 "nginx"]

/-- The spacing between consecutive start issues in `start_all_services`
(the `QTimer.singleShot` delays are 2000 and 4000 ms). -/
def startAllInterval : Nat := 2000

/-- `switch_php_version` (src/cp.py lines 1610-1632): an empty version string
returns at once; otherwise stop PHP, unlink `php/current` when
`current_link.exists()` holds, create the new symlink, schedule the restart
1000 ms out and log.  When the link path is occupied but `exists()` is false
(a dangling symlink), `symlink_to` raises `FileExistsError`, caught by the
try/except, which logs an error and shows a message box. -/
def switch_php_version (w : World) (version : String) : List Effect :=
  if version == "" then []
  else
    let stopE := stop_service w "php"
    if w.pathExists (phpCurrentLink w) then
      stopE ++ [Effect.unlink (phpCurrentLink w),
                Effect.symlink (phpCurrentLink w) (phpVersionDir w version),
                Effect.startSvc 1000 "php",
                Effect.log ("Switched to PHP " ++ version)]
    else if w.lexists (phpCurrentLink w) then
      stopE ++ [Effect.log "Error switching PHP version",
                Effect.msgBox "PHP Switch"]
    else
      stopE ++ [Effect.symlink (phpCurrentLink w) (phpVersionDir w version),
                Effect.startSvc 1000 "php",
                Effect.log ("Switched to PHP " ++ version)]

/-- An effect that appends to the operational audit log. -/
def isLog : Effect → Bool
  | Effect.log _ => true
  | _ => false

/-- An effect that creates, deletes or modifies some file on disk (the audit
log included, since `log_message` appends a line to it). -/
def isFsMutation : Effect → Bool
  | Effect.log _ => true
  | Effect.unlink _ => true
  | Effect.rmtree _ => true
  | Effect.symlink _ _ => true
  | _ => false

/-- An effect that creates, deletes or modifies a file other than the audit
log. -/
def isLinkMutation : Effect → Bool
  | Effect.unlink _ => true
  | Effect.rmtree _ => true
  | Effect.symlink _ _ => true
  | _ => false

/-- An effect that signals a service: a SIGTERM or the administrative
`shutdown` command (`ping` is a read-only probe). -/
def isSignal : Effect → Bool
  | Effect.kill _ => true
  | Effect.adminCmd c => c == "shutdown"
  | _ => false

/-- Number of lines an effect list appends to the audit log. -/
def logCount (effs : List Effect) : Nat := (effs.filter isLog).length

/-- The delay with which the start of `svc` is issued, if it is issued. -/
def startDelay (effs : List Effect) (svc : String) : Option Nat :=
  effs.findSome? fun e =>
    match e with
    | Effect.startSvc d s => if s == svc then some d else none
    | _ => none

/-!
Configuration-file models.  `update_nginx_port` and `update_mysql_port`
rewrite the whole file text with `re.sub`; a configuration file is modelled as
the list of its disjoint segments, where a `listen`/`portDir` segment is a
maximal match of the respective substitution pattern (`listen\s+\d+;` for
nginx, `port\s*=\s*\d+` for MariaDB) and an `other` segment is a run of text
the pattern does not match.  `re.sub` then is exactly the map that rewrites
every matching segment.  A `portDir` segment carries the INI section it sits
in as metadata; the substitution is section-blind, as in the source.
-/

/-- A segment of `nginx.conf`. -/
inductive NginxItem where
  | listen (port : Nat)
  | other (s : String)
  deriving DecidableEq

/-- `re.sub(r'listen\s+\d+;', f'listen {port};', content)`. -/
def subListen (port : Nat) (c : List NginxItem) : List NginxItem :=
  c.map fun i =>
    match i with
    | NginxItem.listen _ => NginxItem.listen port
    | x => x

/-- `create_nginx_config` (src/cp.py lines 553-600): the synthesized
configuration, one segment per line, with exactly one `listen` directive. -/
def create_nginx_config (stackDir : String) (port : Nat) : List NginxItem :=
  [NginxItem.other "worker_processes auto;",
   NginxItem.other "error_log logs/error.log;",
   NginxItem.other "pid nginx.pid;",
   NginxItem.other "events \x7b",
   NginxItem.other "    worker_connections 1024;",
   NginxItem.other "\x7d",
   NginxItem.other "http \x7b",
   NginxItem.other "    include mime.types;",
   NginxItem.other "    default_type application/octet-stream;",
   NginxItem.other "    sendfile on;",
   NginxItem.other "    keepalive_timeout 65;",
   NginxItem.other "    server \x7b",
   NginxItem.listen port,
   NginxItem.other "        server_name localhost;",
   NginxItem.other ("        root " ++ stackDir ++ "/www;"),
   NginxItem.other "        index index.php index.html index.htm;",
   NginxItem.other "        location / \x7b",
   NginxItem.other "            try_files $uri $uri/ /index.php?$query_string;",
   NginxItem.other "        \x7d",
   NginxItem.other "        location ~ \\.php$ \x7b",
   NginxItem.other ("            fastcgi_pass unix:" ++ stackDir ++
     "/php/current/php-fpm.sock;"),
   NginxItem.other "            fastcgi_index index.php;",
   NginxItem.other
     "            fastcgi_param SCRIPT_FILENAME $document_root$fastcgi_script_name;",
   NginxItem.other "            include fastcgi_params;",
   NginxItem.other "        \x7d",
   NginxItem.other "        location ~ /\\.ht \x7b",
   NginxItem.other "            deny all;",
   NginxItem.other "        \x7d",
   NginxItem.other "    \x7d",
   NginxItem.other "\x7d"]

/-- `update_nginx_port` (src/cp.py lines 503-525), as the transformation of
the on-disk `nginx.conf` content: `none` models an absent file, in which case
`create_nginx_config(port)` synthesizes it; otherwise every listen directive
is rewritten to `listen {port};`. -/
def update_nginx_port (stackDir : String) (file : Option (List NginxItem))
    (port : Nat) : List NginxItem :=
  match file with
  | none => create_nginx_config stackDir port
  | some c => subListen port c

/-- The values of the listen directives of an `nginx.conf`, in order. -/
def listenPorts (c : List NginxItem) : List Nat :=
  c.filterMap fun i =>
    match i with
    | NginxItem.listen p => some p
    | _ => none

/-- A segment of `my.cnf`.  `portDir s n` is a `port = n` directive lying in
INI section `s` (the section is metadata the regex does not see). -/
inductive CnfItem where
  | portDir (sectionName : String) (n : Nat)
  | other (s : String)
  deriving DecidableEq

/-- `re.sub(r'port\s*=\s*\d+', f'port = {port}', content)`. -/
def subPort (port : Nat) (c : List CnfItem) : List CnfItem :=
  c.map fun i =>
    match i with
    | CnfItem.portDir s _ => CnfItem.portDir s port
    | x => x

/-- The `my_cnf_content` template of `fix_mysql_socket` (src/cp.py lines
863-910), one segment per line, parameterized by the MariaDB directory and the
current port spinbox value.  Both the `[client]` and the `[mysqld]` section
carry `port={p}`. -/
def mysqlTemplate (mysqlDir : String) (p : Nat) : List CnfItem :=
  [CnfItem.other "[client]",
   CnfItem.portDir "client" p,
   CnfItem.other ("socket=" ++ mysqlDir ++ "/mariadb.sock"),
   CnfItem.other "[mysqld]",
   CnfItem.other ("basedir=" ++ mysqlDir),
   CnfItem.other ("datadir=" ++ mysqlDir ++ "/data"),
   CnfItem.portDir "mysqld" p,
   CnfItem.other ("socket=" ++ mysqlDir ++ "/mariadb.sock"),
   CnfItem.other ("pid-file=" ++ mysqlDir ++ "/mariadb.pid"),
   CnfItem.other ("log-error=" ++ mysqlDir ++ "/logs/error.log"),
   CnfItem.other ("tmpdir=" ++ mysqlDir ++ "/tmp"),
   CnfItem.other "skip-networking",
   CnfItem.other "bind-address=127.0.0.1",
   CnfItem.other "innodb_buffer_pool_size=16M",
   CnfItem.other "innodb_log_file_size=48M",
   CnfItem.other "loose-skip-symbolic-links=1",
   CnfItem.other "[mariadb]",
   CnfItem.other ("socket=" ++ mysqlDir ++ "/mariadb.sock"),
   CnfItem.other "[mariadbd]",
   CnfItem.other ("socket=" ++ mysqlDir ++ "/mariadb.sock"),
   CnfItem.other "[mysql]",
   CnfItem.other ("socket=" ++ mysqlDir ++ "/mariadb.sock"),
   CnfItem.other "[mysqladmin]",
   CnfItem.other ("socket=" ++ mysqlDir ++ "/mariadb.sock"),
   CnfItem.other "[mysqldump]",
   CnfItem.other ("socket=" ++ mysqlDir ++ "/mariadb.sock"),
   CnfItem.other "[mysqlimport]",
   CnfItem.other ("socket=" ++ mysqlDir ++ "/mariadb.sock"),
   CnfItem.other "[mysqlshow]",
   CnfItem.other ("socket=" ++ mysqlDir ++ "/mariadb.sock"),
   CnfItem.other "[mysqlcheck]",
   CnfItem.other ("socket=" ++ mysqlDir ++ "/mariadb.sock")]

/-- `fix_mysql_socket` (src/cp.py lines 851-931), as the content it writes to
`my.cnf`: the full template at the current spinbox port. -/
def fix_mysql_socket (mysqlDir : String) (spinPort : Nat) : List CnfItem :=
  mysqlTemplate mysqlDir spinPort

/-- `update_mysql_port` (src/cp.py lines 527-551), as the transformation of
the on-disk `my.cnf` content.  `none` models an absent file, in which case
`fix_mysql_socket` regenerates the template at the spinbox port (not at the
`port` argument); otherwise the same `re.sub` is applied twice, rewriting
every port directive of the whole file. -/
def update_mysql_port (mysqlDir : String) (file : Option (List CnfItem))
    (port spinPort : Nat) : List CnfItem :=
  match file with
  | none => fix_mysql_socket mysqlDir spinPort
  | some c => subPort port (subPort port c)

/-- The values of the port directives of a `my.cnf`, in order. -/
def portValues (c : List CnfItem) : List Nat :=
  c.filterMap fun i =>
    match i with
    | CnfItem.portDir _ n => some n
    | _ => none

/-!
Version-discovery model.  A `DirEntry` is one entry of `php_dir.iterdir()`, in
iteration order: its name, whether it is a directory, and whether its
`bin/php` executable exists.
-/

structure DirEntry where
  name : String
  isDir : Bool
  hasPhpBinary : Bool
  deriving DecidableEq

/-- The name test `item.name.replace('.', '').isdigit() and len(item.name) <= 4`
shared by `populate_php_versions` and `fix_php_symlinks`.  Python `isdigit` is
true only for a nonempty all-digit string. -/
def isVersionName (s : String) : Bool :=
  let stripped := s.toList.filter (fun c => c != '.')
  (!stripped.isEmpty && stripped.all (fun c => c.isDigit)) && s.length ≤ 4

/-- The discovery filter common to `populate_php_versions` (src/cp.py lines
1343-1349) and `fix_php_symlinks` (lines 1171-1177): a directory whose name
passes `isVersionName` and whose `bin/php` exists, in iteration order. -/
def primaryVersions (entries : List DirEntry) : List String :=
  (entries.filter fun e => e.isDir && isVersionName e.name && e.hasPhpBinary).map
    DirEntry.name

/-- `populate_php_versions` (src/cp.py lines 1336-1359), as the list of
version names it puts in the combo box.  `currentResolved` is
`current_link.resolve().name` when `current` exists and is a symlink, else
`none`; when the primary filter finds nothing, that resolved name is listed
as-is. -/
def populate_php_versions (entries : List DirEntry)
    (currentResolved : Option String) : List String :=
  let vs := primaryVersions entries
  if vs.isEmpty then
    match currentResolved with
    | some t => [t]
    | none => []
  else vs

/-- The symlink target `fix_php_symlinks` (src/cp.py lines 1160-1201) picks:
the first entry of the filtered version list, or none (warn and return) when
the list is empty. -/
def fix_php_symlinks_target (entries : List DirEntry) : Option String :=
  (primaryVersions entries).head?

/-- The value `get_fallback_environment` stores in a search-path variable:
the joined existing candidates, prepended with `:` to the inherited value when
one exists, alone otherwise. -/
def prependedValue (joined : String) : Option String → String
  | some old => joined ++ ":" ++ old
  | none => joined

/-!
Concrete inputs for the counterexamples and witnesses below.  Each world
fixes a stack root of `/ws` and spells out which paths exist.
-/

/-- A stack with PHP 8.3 installed and `php/current` in place, `env.sh`
absent, and no service running. -/
def wC1 : World where
  stackDir := "/ws"
  pathExists := fun p => p == "/ws/php/current" || p == "/ws/php/8.3" ||
    p == "/ws/php/8.3/bin/php"
  lexists := fun p => p == "/ws/php/current" || p == "/ws/php/8.3" ||
    p == "/ws/php/8.3/bin/php"
  currentResolvedName := some "8.3"
  pidOf := fun _ => 0
  sourceEnvLines := none
  baseEnv := []
  mysqlPingOk := false
  mysqlShutdownOk := false
  killOk := fun _ => false
  autoLoadEnv := true

/-- A stack where the MariaDB socket file exists but `mariadb-admin` and
`env.sh` are absent. -/
def wC2 : World where
  stackDir := "/ws"
  pathExists := fun p => p == "/ws/mariadb/mariadb.sock"
  lexists := fun p => p == "/ws/mariadb/mariadb.sock"
  currentResolvedName := none
  pidOf := fun _ => 0
  sourceEnvLines := none
  baseEnv := []
  mysqlPingOk := false
  mysqlShutdownOk := false
  killOk := fun _ => false
  autoLoadEnv := true

/-- A stack with nothing on disk at all: every service is stopped and the
administrative socket is unreachable. -/
def wC3 : World where
  stackDir := "/ws"
  pathExists := fun _ => false
  lexists := fun _ => false
  currentResolvedName := none
  pidOf := fun _ => 0
  sourceEnvLines := none
  baseEnv := []
  mysqlPingOk := false
  mysqlShutdownOk := false
  killOk := fun _ => false
  autoLoadEnv := true

/-- A stack where `env.sh` exists and sourcing it succeeds, printing an
environment that sets neither `WEBSTACK_HOME` nor `PKG_CONFIG_PATH`, over an
empty inherited environment. -/
def wC4 : World where
  stackDir := "/ws"
  pathExists := fun p => p == "/ws/env.sh"
  lexists := fun p => p == "/ws/env.sh"
  currentResolvedName := none
  pidOf := fun _ => 0
  sourceEnvLines := some ["PATH=/usr/bin"]
  baseEnv := []
  mysqlPingOk := false
  mysqlShutdownOk := false
  killOk := fun _ => false
  autoLoadEnv := true

/-- A stack with no `env.sh`, so that environment resolution must fall
back. -/
def wC4b : World where
  stackDir := "/ws"
  pathExists := fun p => p == "/ws/deps/lib" || p == "/ws/deps/bin"
  lexists := fun p => p == "/ws/deps/lib" || p == "/ws/deps/bin"
  currentResolvedName := none
  pidOf := fun _ => 0
  sourceEnvLines := none
  baseEnv := []
  mysqlPingOk := false
  mysqlShutdownOk := false
  killOk := fun _ => false
  autoLoadEnv := true

/-- A stack where `mariadb-admin` is absent while a valid MariaDB PID file
exists and its process is alive. -/
def wC10 : World where
  stackDir := "/ws"
  pathExists := fun p => p == "/ws/mariadb/mariadb.pid" ||
    p == "/ws/mariadb/mariadb.sock"
  lexists := fun p => p == "/ws/mariadb/mariadb.pid" ||
    p == "/ws/mariadb/mariadb.sock"
  currentResolvedName := none
  pidOf := fun _ => 42
  sourceEnvLines := none
  baseEnv := []
  mysqlPingOk := false
  mysqlShutdownOk := false
  killOk := fun _ => true
  autoLoadEnv := true

/-- An `nginx.conf` with exactly one listen directive. -/
def confC5 : List NginxItem :=
  [NginxItem.other "http \x7b server \x7b", NginxItem.listen 8080,
   NginxItem.other "\x7d \x7d"]

/-- A `my.cnf` whose `[client]` and `[mysqld]` sections disagree before the
mutation. -/
def cnfC8 : List CnfItem :=
  [CnfItem.other "[client]", CnfItem.portDir "client" 3306,
   CnfItem.other "[mysqld]", CnfItem.portDir "mysqld" 3307]

/-- A PHP directory entry whose name is a long version string but whose
binary exists. -/
def entryLong : DirEntry := ⟨"8.3.10", true, true⟩

/-- A PHP directory entry with a short version name and an existing
binary. -/
def entryShort : DirEntry := ⟨"8.3", true, true⟩

/-!
Association-list lemmas for the environment model.
-/

theorem find_map_set_self (e : List (String × String)) (k v : String)
    (h : hasVar e k = true) :
    (e.map (fun p => if p.1 == k then (k, v) else p)).find?
      (fun p => p.1 == k) = some (k, v) := by
  induction e with
  | nil => simp [hasVar] at h
  | cons p t ih =>
    rw [List.map_cons]
    cases hp : (p.1 == k)
    · rw [if_neg (by simp [hp])]
      rw [@List.find?_cons_of_neg _ (fun q => q.1 == k) p _ (by simp [hp])]
      apply ih
      unfold hasVar at h ⊢
      rw [List.any_cons, hp] at h
      simpa using h
    · rw [if_pos (by simp [hp])]
      exact @List.find?_cons_of_pos _ (fun q => q.1 == k) (k, v) _ (by simp)

theorem find_none_of_not_has (e : List (String × String)) (k : String)
    (h : hasVar e k = false) :
    e.find? (fun p => p.1 == k) = none := by
  induction e with
  | nil => rfl
  | cons p t ih =>
    cases hp : (p.1 == k)
    · rw [@List.find?_cons_of_neg _ (fun q => q.1 == k) p _ (by simp [hp])]
      apply ih
      unfold hasVar at h ⊢
      rw [List.any_cons, hp] at h
      simpa using h
    · exfalso
      unfold hasVar at h
      rw [List.any_cons, hp] at h
      simp at h

theorem find_map_set_ne (e : List (String × String)) (k k2 v : String)
    (hne : (k2 == k) = false) :
    (e.map (fun p => if p.1 == k2 then (k2, v) else p)).find?
      (fun p => p.1 == k) = e.find? (fun p => p.1 == k) := by
  induction e with
  | nil => rfl
  | cons p t ih =>
    rw [List.map_cons]
    cases hp : (p.1 == k2)
    · rw [if_neg (by simp [hp])]
      cases hpk : (p.1 == k)
      · rw [@List.find?_cons_of_neg _ (fun q => q.1 == k) p _ (by simp [hpk]),
          @List.find?_cons_of_neg _ (fun q => q.1 == k) p _ (by simp [hpk])]
        exact ih
      · rw [@List.find?_cons_of_pos _ (fun q => q.1 == k) p _ hpk,
          @List.find?_cons_of_pos _ (fun q => q.1 == k) p _ hpk]
    · rw [if_pos (by simp [hp])]
      have hpeq : p.1 = k2 := by simpa using hp
      have hpk : (p.1 == k) = false := by rw [hpeq]; exact hne
      rw [@List.find?_cons_of_neg _ (fun q => q.1 == k) (k2, v) _ (by simp [hne]),
        @List.find?_cons_of_neg _ (fun q => q.1 == k) p _ (by simp [hpk])]
      exact ih

theorem lookupVar_setVar_self (e : List (String × String)) (k v : String) :
    lookupVar (setVar e k v) k = some v := by
  unfold lookupVar setVar
  cases h : hasVar e k
  · rw [if_neg (by simp [h])]
    rw [List.find?_append, find_none_of_not_has e k h, Option.none_or]
    rw [@List.find?_cons_of_pos _ (fun q => q.1 == k) (k, v) _ (by simp)]
    rfl
  · rw [if_pos (by simp [h])]
    rw [find_map_set_self e k v h]
    rfl

theorem lookupVar_setVar_ne (e : List (String × String)) (k k2 v : String)
    (hne : k2 ≠ k) :
    lookupVar (setVar e k2 v) k = lookupVar e k := by
  have hb : (k2 == k) = false := beq_eq_false_iff_ne.mpr hne
  unfold lookupVar setVar
  cases h : hasVar e k2
  · rw [if_neg (by simp [h])]
    rw [List.find?_append,
      @List.find?_cons_of_neg _ (fun q => q.1 == k) (k2, v) _ (by simp [hb])]
    rw [show (List.find? (fun q => q.1 == k) [] : Option (String × String)) =
      none from rfl, Option.or_none]
  · rw [if_pos (by simp [h])]
    rw [find_map_set_ne e k k2 v hb]

theorem lookupVar_prependPathVar_self (e : List (String × String))
    (k j : String) :
    lookupVar (prependPathVar e k j) k =
      some (prependedValue j (lookupVar e k)) := by
  unfold prependPathVar prependedValue
  cases h : lookupVar e k <;> simp [h, lookupVar_setVar_self]

theorem lookupVar_prependPathVar_ne (e : List (String × String))
    (k k2 j : String) (hne : k2 ≠ k) :
    lookupVar (prependPathVar e k2 j) k = lookupVar e k := by
  unfold prependPathVar
  cases hh : lookupVar e k2 <;> simp [lookupVar_setVar_ne _ _ _ _ hne]

/-!
Basic facts about the effect traces of environment resolution.
-/

theorem logCount_append (a b : List Effect) :
    logCount (a ++ b) = logCount a + logCount b := by
  simp [logCount, List.filter_append]

theorem logCount_env (w : World) : logCount (get_environment w).2 = 1 := by
  unfold get_environment
  cases h : w.pathExists (envShPath w) <;> cases h2 : w.sourceEnvLines <;>
    simp [h, h2, logCount, isLog]

theorem filter_isLog_env_length (w : World) :
    (List.filter isLog (get_environment w).2).length = 1 := logCount_env w

theorem startDelay_env (w : World) (svc : String) :
    startDelay (get_environment w).2 svc = none := by
  unfold get_environment
  cases h : w.pathExists (envShPath w) <;> cases h2 : w.sourceEnvLines <;>
    simp [h, h2, startDelay, List.findSome?_cons]

/-- Claim C6: in the fallback resolver, each search-path variable holds
exactly the on-disk survivors of the fixed candidate list — private deps tree
entries written before the stack root and system entries, in candidate
order — joined with `:` and prepended to the inherited value of the variable
when one exists, alone otherwise. -/
theorem C6_fallback_search_paths (w : World) :
    lookupVar (get_fallback_environment w) "LD_LIBRARY_PATH" =
      some (prependedValue
        (String.intercalate ":"
          (([pjoin (depsDir w) "lib", pjoin (depsDir w) "lib64",
             "/usr/lib", "/usr/lib64", "/lib", "/lib64"]).filter w.pathExists))
        (lookupVar w.baseEnv "LD_LIBRARY_PATH")) ∧
    lookupVar (get_fallback_environment w) "PATH" =
      some (prependedValue
        (String.intercalate ":"
          (([pjoin (depsDir w) "bin", pjoin w.stackDir "bin",
             "/usr/bin", "/bin"]).filter w.pathExists))
        (lookupVar w.baseEnv "PATH")) := by
  unfold get_fallback_environment
  constructor
  · rw [lookupVar_setVar_ne _ _ _ _ (by decide),
      lookupVar_setVar_ne _ _ _ _ (by decide),
      lookupVar_prependPathVar_ne _ _ _ _ (by decide),
      lookupVar_prependPathVar_self]
    rfl
  · rw [lookupVar_setVar_ne _ _ _ _ (by decide),
      lookupVar_setVar_ne _ _ _ _ (by decide),
      lookupVar_prependPathVar_self,
      lookupVar_prependPathVar_ne _ _ _ _ (by decide)]
    rfl

/-- Claim C4 counterexample: with `env.sh` present and sourcing succeeding,
`get_environment` returns the subshell output merged over the inherited
environment and sets neither `WEBSTACK_HOME` nor `PKG_CONFIG_PATH` itself, so
the claim that every resolution sets both variables is false. -/
theorem C4_counterexample :
    wC4.pathExists (envShPath wC4) = true ∧
    wC4.sourceEnvLines.isSome = true ∧
    lookupVar (get_environment wC4).1 "WEBSTACK_HOME" = none ∧
    lookupVar (get_environment wC4).1 "PKG_CONFIG_PATH" = none := by decide

/-- Claim C4 (amended): only the fallback resolver guarantees the two
auxiliary variables: `get_fallback_environment` always sets `WEBSTACK_HOME`
to the stack root and `PKG_CONFIG_PATH` to the pkgconfig directory of the
private deps tree, and `get_environment` returns exactly that fallback
environment whenever `env.sh` is absent or sourcing it fails; when sourcing
succeeds, the result is just the subshell output merged over the inherited
environment. -/
theorem C4_fallback_sets_aux_vars (w : World) :
    lookupVar (get_fallback_environment w) "WEBSTACK_HOME" = some w.stackDir ∧
    lookupVar (get_fallback_environment w) "PKG_CONFIG_PATH" =
      some (pjoin (pjoin (depsDir w) "lib") "pkgconfig") ∧
    (w.pathExists (envShPath w) = false →
      (get_environment w).1 = get_fallback_environment w) ∧
    (w.sourceEnvLines = none →
      (get_environment w).1 = get_fallback_environment w) ∧
    (∀ lines, w.pathExists (envShPath w) = true →
      w.sourceEnvLines = some lines →
      (get_environment w).1 = applyEnvLines w.baseEnv lines) := by
  refine ⟨?_, ?_, ?_, ?_, ?_⟩
  · unfold get_fallback_environment
    rw [lookupVar_setVar_ne _ _ _ _ (by decide), lookupVar_setVar_self]
  · unfold get_fallback_environment
    rw [lookupVar_setVar_self]
  · intro h
    simp [get_environment, h]
  · intro h
    cases hp : w.pathExists (envShPath w) <;> simp [get_environment, hp, h]
  · intro lines h hl
    simp [get_environment, h, hl]

/-- Claim C4 witness: at a concrete world without `env.sh`, the fallback is
used and both auxiliary variables are set. -/
theorem C4_witness :
    lookupVar (get_fallback_environment wC4b) "WEBSTACK_HOME" =
      some wC4b.stackDir ∧
    (get_environment wC4b).1 = get_fallback_environment wC4b :=
  ⟨(C4_fallback_sets_aux_vars wC4b).1,
   (C4_fallback_sets_aux_vars wC4b).2.2.1 (by decide)⟩

/-- Claim C1 counterexample: at a stack where only PHP 8.3 is installed,
switching to version `9.9` — whose binary does not exist on disk — is not
rejected: the call mutates the filesystem, removing `php/current` and creating
a symlink that points at the nonexistent `php/9.9`.  There is no
`UnknownVersion` failure and no zero-mutation guarantee. -/
theorem C1_counterexample :
    wC1.pathExists (pjoin (phpVersionDir wC1 "9.9") "bin/php") = false ∧
    Effect.unlink "/ws/php/current" ∈ switch_php_version wC1 "9.9" ∧
    Effect.symlink "/ws/php/current" "/ws/php/9.9" ∈ switch_php_version wC1 "9.9" ∧
    (switch_php_version wC1 "9.9").any isLinkMutation = true := by decide

/-- Claim C1 (amended): `switch_php_version` performs no installed-binary
check at all.  An empty version string returns with no effect; any non-empty
version — whether or not its directory or binary exists on disk — stops PHP,
unlinks an existing `current` link and creates a new link to the requested
version directory, so a version with no binary still mutates the link (the
filter that hides such versions lives in `populate_php_versions`, not
here). -/
theorem C1_switch_unchecked (w : World) (v : String) :
    (v = "" → switch_php_version w v = []) ∧
    (v ≠ "" → w.pathExists (phpCurrentLink w) = true →
      switch_php_version w v =
        stop_service w "php" ++
        [Effect.unlink (phpCurrentLink w),
         Effect.symlink (phpCurrentLink w) (phpVersionDir w v),
         Effect.startSvc 1000 "php",
         Effect.log ("Switched to PHP " ++ v)]) := by
  constructor
  · intro h
    simp [switch_php_version, h]
  · intro hv hcur
    have hb : (v == "") = false := beq_eq_false_iff_ne.mpr hv
    simp [switch_php_version, hb, hcur]

/-- Claim C1 witness: the amended claim at the concrete stack, switching to
the uninstalled version `9.9`. -/
theorem C1_witness :
    switch_php_version wC1 "9.9" =
      stop_service wC1 "php" ++
      [Effect.unlink (phpCurrentLink wC1),
       Effect.symlink (phpCurrentLink wC1) (phpVersionDir wC1 "9.9"),
       Effect.startSvc 1000 "php",
       Effect.log ("Switched to PHP " ++ "9.9")] :=
  (C1_switch_unchecked wC1 "9.9").2 (by decide) (by decide)

/-- Claim C2 counterexample: when the MariaDB socket file exists, the status
probe resolves the environment, and `get_environment` appends a line to the
operational audit log — so probing does modify a file, contradicting the
claim that `isRunning` never creates, deletes or modifies any file. -/
theorem C2_counterexample :
    wC2.pathExists (mysqlSockPath wC2) = true ∧
    Effect.log "env.sh not found, using fallback environment" ∈
      (update_status wC2).2 ∧
    (update_status wC2).2.any isFsMutation = true := by decide

/-- Claim C2 (amended): the status probe is a deterministic function of the
probed state and never creates, deletes or overwrites any file other than the
audit log; but whenever the database socket file exists, each probe appends
at least one environment-resolution line to the audit log, so it is not free
of file modification. -/
theorem C2_probe_logs_only (w : World)
    (hsock : w.pathExists (mysqlSockPath w) = true) :
    ((update_status w).2.all
      (fun e => isLog e || e == Effect.runSource ||
        e == Effect.adminCmd "ping")) = true ∧
    ((update_status w).2.any isLinkMutation) = false ∧
    ((update_status w).2.any isLog) = true := by
  cases hadmin : w.pathExists (mysqlAdminPath w) <;>
    cases hsh : w.pathExists (envShPath w) <;>
    cases hl : w.sourceEnvLines <;>
    simp [update_status, check_mysql_status, get_environment, hsock, hadmin,
      hsh, hl, isLog, isLinkMutation]

/-- Claim C2 witness: the amended claim at the concrete stack whose socket
file exists. -/
theorem C2_witness :
    ((update_status wC2).2.all
      (fun e => isLog e || e == Effect.runSource ||
        e == Effect.adminCmd "ping")) = true ∧
    ((update_status wC2).2.any isLinkMutation) = false ∧
    ((update_status wC2).2.any isLog) = true :=
  C2_probe_logs_only wC2 (by decide)

/-- Claim C3 counterexample: stopping nginx while its PID file is absent
appends two audit-log lines (the environment-resolution line and the
completion line), not exactly one. -/
theorem C3_counterexample :
    wC3.pathExists (nginxPidFile wC3) = false ∧
    logCount (stop_service wC3 "nginx") = 2 ∧
    ¬ logCount (stop_service wC3 "nginx") = 1 := by decide

/-- Claim C3 (amended): stopping an already-stopped service raises no
unhandled error (the body is total, every failure branch is caught and
logged), but appends two audit-log lines for the PID-file services — one from
environment resolution, one completion line — and three for the database,
never exactly one. -/
theorem C3_stop_log_lines (w : World) :
    (w.pathExists (nginxPidFile w) = false →
      logCount (stop_service w "nginx") = 2) ∧
    (w.pathExists (phpPidFile w) = false →
      logCount (stop_service w "php") = 2) ∧
    (w.mysqlShutdownOk = false → logCount (stop_service w "mysql") = 3) := by
  refine ⟨?_, ?_, ?_⟩
  · intro h
    simp [stop_service, h, logCount_append, logCount_env, logCount, isLog,
      filter_isLog_env_length]
  · intro h
    simp [stop_service, h, logCount_append, logCount_env, logCount, isLog,
      filter_isLog_env_length]
  · intro h
    cases hadmin : w.pathExists (mysqlAdminPath w) <;>
      cases hpid : w.pathExists (mysqlPidFile w) <;>
      cases hk : w.killOk (w.pidOf (mysqlPidFile w)) <;>
      simp [stop_service, h, hadmin, hpid, hk, logCount_append, logCount_env,
        logCount, isLog, filter_isLog_env_length]

/-- Claim C3 witness: the amended claim at the concrete stack where every
service is stopped. -/
theorem C3_witness :
    logCount (stop_service wC3 "nginx") = 2 ∧
    logCount (stop_service wC3 "php") = 2 ∧
    logCount (stop_service wC3 "mysql") = 3 :=
  ⟨(C3_stop_log_lines wC3).1 (by decide),
   (C3_stop_log_lines wC3).2.1 (by decide),
   (C3_stop_log_lines wC3).2.2 (by decide)⟩

theorem startDelay_append_none (a b : List Effect) (svc : String)
    (h : startDelay a svc = none) :
    startDelay (a ++ b) svc = startDelay b svc := by
  unfold startDelay at *
  rw [List.findSome?_append, h, Option.none_or]

/-- Claim C7: `start_all_services` issues the database start immediately, the
script-runtime start after one interval and the gateway start after two
intervals, so the three starts are issued in the order mysql, php, nginx with
consecutive gaps of exactly the fixed 2000 ms interval. -/
theorem C7_start_order (w : World) :
    startDelay (start_all_services w) "mysql" = some 0 ∧
    startDelay (start_all_services w) "php" = some startAllInterval ∧
    startDelay (start_all_services w) "nginx" = some (2 * startAllInterval) ∧
    0 + startAllInterval ≤ startAllInterval ∧
    startAllInterval + startAllInterval ≤ 2 * startAllInterval := by
  have hmid : ∀ s, startDelay
      (if w.autoLoadEnv then (load_environment w).2 else []) s = none := by
    intro s
    cases hA : w.autoLoadEnv
    · rw [if_neg (by simp [hA])]
      rfl
    · rw [if_pos (by simp [hA])]
      unfold load_environment
      rw [startDelay_append_none _ _ _ (startDelay_env w s)]
      rfl
  have hpre : ∀ s, startDelay
      ([Effect.log "Starting all services..."] ++
        (if w.autoLoadEnv then (load_environment w).2 else [])) s = none := by
    intro s
    rw [startDelay_append_none _ _ _ (by rfl)]
    exact hmid s
  refine ⟨?_, ?_, ?_, by decide, by decide⟩
  · unfold start_all_services
    rw [startDelay_append_none _ _ _ (hpre _)]
    rfl
  · unfold start_all_services
    rw [startDelay_append_none _ _ _ (hpre _)]
    rfl
  · unfold start_all_services
    rw [startDelay_append_none _ _ _ (hpre _)]
    rfl

/-- Claim C10: when `mariadb-admin` is absent from disk, `stop_service` on
the database performs no signaling at all — no SIGTERM and no administrative
shutdown command, even when a valid PID file exists — and does nothing except
resolve the environment and write log lines. -/
theorem C10_stop_mysql_no_admin (w : World)
    (hadmin : w.pathExists (mysqlAdminPath w) = false) :
    ((stop_service w "mysql").all
      (fun e => isLog e || e == Effect.runSource)) = true ∧
    ((stop_service w "mysql").any isSignal) = false := by
  cases hsh : w.pathExists (envShPath w) <;> cases hl : w.sourceEnvLines <;>
    simp [stop_service, get_environment, hadmin, hsh, hl, isLog, isSignal]

/-- Claim C10 witness: the claim at a concrete stack where the admin binary
is absent while a valid PID file for a live process exists. -/
theorem C10_witness :
    wC10.pathExists (mysqlPidFile wC10) = true ∧
    wC10.pathExists (mysqlAdminPath wC10) = false ∧
    ((stop_service wC10 "mysql").all
      (fun e => isLog e || e == Effect.runSource)) = true ∧
    ((stop_service wC10 "mysql").any isSignal) = false :=
  ⟨by decide, by decide, (C10_stop_mysql_no_admin wC10 (by decide)).1,
   (C10_stop_mysql_no_admin wC10 (by decide)).2⟩

theorem listenPorts_subListen (p : Nat) (c : List NginxItem) :
    listenPorts (subListen p c) = (listenPorts c).map (fun _ => p) := by
  induction c with
  | nil => rfl
  | cons i t ih =>
    cases i with
    | listen n =>
      simpa [subListen, listenPorts, List.filterMap_cons] using ih
    | other s =>
      simpa [subListen, listenPorts, List.filterMap_cons] using ih

theorem listenPorts_create (sd : String) (p : Nat) :
    listenPorts (create_nginx_config sd p) = [p] := rfl

/-- Claim C5: for any port and any pre-state that is absent or carries
exactly one listen directive, `update_nginx_port` leaves the configuration
with exactly one listen directive holding the new port, and a second call
with a different port replaces it without ever appending a second
directive. -/
theorem C5_roundtrip (sd : String) (file : Option (List NginxItem))
    (P P2 : Nat) (hP1 : 1024 ≤ P) (hPu : P ≤ 65535) (hQ1 : 1024 ≤ P2)
    (hQu : P2 ≤ 65535) (hne : P ≠ P2)
    (hpre : file = none ∨ ∃ c, file = some c ∧ (listenPorts c).length = 1) :
    listenPorts (update_nginx_port sd file P) = [P] ∧
    listenPorts (update_nginx_port sd
      (some (update_nginx_port sd file P)) P2) = [P2] := by
  have h1 : listenPorts (update_nginx_port sd file P) = [P] := by
    rcases hpre with h | ⟨c, rfl, hc⟩
    · rw [h]
      exact listenPorts_create sd P
    · obtain ⟨a, ha⟩ := List.length_eq_one.mp hc
      show listenPorts (subListen P c) = [P]
      rw [listenPorts_subListen, ha]
      rfl
  refine ⟨h1, ?_⟩
  show listenPorts (subListen P2 (update_nginx_port sd file P)) = [P2]
  rw [listenPorts_subListen, h1]
  rfl

/-- Claim C5 witness: the round trip at a concrete configuration holding one
`listen 8080;` directive, through ports 8081 and then 8082. -/
theorem C5_witness :
    listenPorts (update_nginx_port "/ws" (some confC5) 8081) = [8081] ∧
    listenPorts (update_nginx_port "/ws"
      (some (update_nginx_port "/ws" (some confC5) 8081)) 8082) = [8082] :=
  C5_roundtrip "/ws" (some confC5) 8081 8082 (by decide) (by decide)
    (by decide) (by decide) (by decide) (Or.inr ⟨confC5, rfl, by decide⟩)

theorem portDir_mem_subPort (p : Nat) (c : List CnfItem) (s : String) (n : Nat)
    (h : CnfItem.portDir s n ∈ subPort p c) : n = p := by
  unfold subPort at h
  rw [List.mem_map] at h
  obtain ⟨i, hmem, hi⟩ := h
  cases i with
  | portDir s2 n2 =>
    simp at hi
    exact hi.2.symm
  | other s2 => simp at hi

theorem portDir_mem_template (d : String) (q : Nat) (s : String) (n : Nat)
    (h : CnfItem.portDir s n ∈ mysqlTemplate d q) : n = q := by
  simp [mysqlTemplate] at h
  rcases h with ⟨-, rfl⟩ | ⟨-, rfl⟩ <;> rfl

/-- Claim C8: after `update_mysql_port` (and after a regeneration by
`fix_mysql_socket`, the absent-file path), any two port directives of the
resulting `my.cnf` — in particular the ones of the `[client]` and the
`[mysqld]` section — carry the same value: the substitution is applied to the
whole file, so the sections cannot disagree. -/
theorem C8_port_agreement (d : String) (file : Option (List CnfItem))
    (port spinPort : Nat) (s1 s2 : String) (n1 n2 : Nat)
    (h1 : CnfItem.portDir s1 n1 ∈ update_mysql_port d file port spinPort)
    (h2 : CnfItem.portDir s2 n2 ∈ update_mysql_port d file port spinPort) :
    n1 = n2 := by
  cases file with
  | none =>
    rw [portDir_mem_template d spinPort s1 n1 h1,
      portDir_mem_template d spinPort s2 n2 h2]
  | some c =>
    rw [portDir_mem_subPort port _ s1 n1 h1,
      portDir_mem_subPort port _ s2 n2 h2]

/-- Claim C8 witness: applied to a concrete `my.cnf` whose sections disagree
(3306 against 3307) before the call, both sections hold 8888 afterwards. -/
theorem C8_witness :
    CnfItem.portDir "client" 8888 ∈
      update_mysql_port "/ws/mariadb" (some cnfC8) 8888 3306 ∧
    CnfItem.portDir "mysqld" 8888 ∈
      update_mysql_port "/ws/mariadb" (some cnfC8) 8888 3306 ∧
    (8888 : Nat) = 8888 :=
  ⟨by decide, by decide,
   C8_port_agreement "/ws/mariadb" (some cnfC8) 8888 3306 "client" "mysqld"
     8888 8888 (by decide) (by decide)⟩

/-- Claim C9 counterexample: a directory named `8.3.10` with a valid binary
fails the name filter (six characters), yet when it is the only installation
and `current` resolves to it, `populate_php_versions` falls back to listing
the resolved target name unchecked — so `8.3.10` IS listed, contradicting the
claim that such a directory is never listed. -/
theorem C9_counterexample :
    entryLong.hasPhpBinary = true ∧
    isVersionName entryLong.name = false ∧
    populate_php_versions [entryLong] (some "8.3.10") = ["8.3.10"] := by decide

/-- Claim C9 (amended): the primary discovery filter admits exactly the
directories whose dot-stripped name is nonempty digits, whose name has at
most 4 characters and whose `bin/php` exists, and `fix_php_symlinks` only
ever targets a directory passing that filter; but when no directory passes,
`populate_php_versions` falls back to listing the resolved name of the
`current` symlink without any of these checks. -/
theorem C9_version_filter (entries : List DirEntry) (cur : Option String) :
    (∀ v ∈ primaryVersions entries,
      isVersionName v = true ∧
      ∃ e ∈ entries, e.name = v ∧ e.isDir = true ∧ e.hasPhpBinary = true) ∧
    (∀ t ∈ fix_php_symlinks_target entries, t ∈ primaryVersions entries) ∧
    ((primaryVersions entries).isEmpty = true →
      populate_php_versions entries cur = cur.toList) ∧
    ((primaryVersions entries).isEmpty = false →
      populate_php_versions entries cur = primaryVersions entries) := by
  refine ⟨?_, ?_, ?_, ?_⟩
  · intro v hv
    unfold primaryVersions at hv
    rw [List.mem_map] at hv
    obtain ⟨e, he, rfl⟩ := hv
    rw [List.mem_filter] at he
    obtain ⟨hmem, hcond⟩ := he
    simp only [Bool.and_eq_true] at hcond
    exact ⟨hcond.1.2, e, hmem, rfl, hcond.1.1, hcond.2⟩
  · intro t ht
    exact List.mem_of_mem_head? ht
  · intro h
    cases cur <;> simp [populate_php_versions, h, Option.toList]
  · intro h
    simp [populate_php_versions, h]

/-- Claim C9 witness: the amended claim at a one-entry directory listing
holding a valid `8.3` installation. -/
theorem C9_witness :
    isVersionName "8.3" = true ∧
    populate_php_versions [entryShort] none = primaryVersions [entryShort] :=
  ⟨((C9_version_filter [entryShort] none).1 "8.3" (by decide)).1,
   (C9_version_filter [entryShort] none).2.2.2 (by decide)⟩

end WebStack
